import Mathlib

/-!
Shallow embedding of the theme-aware 3D scene renderer of `src/js/three-scenes.js`
(plus `initTheme` of `src/js/main.js`), together with theorems settling the
frozen claims about it.

Modelling conventions:
- JS numbers that the relevant code only ever combines with exact arithmetic
  (hex colors, opacity constants, grid coordinates) are modelled as `ℕ`, `ℤ`
  or `ℚ`; the animation mathematics (`Math.sin`, `Math.cos`, `Math.acos`,
  `Math.PI`) is modelled over `ℝ`, with the transcendental functions passed in
  through a `TrigModel` record so that all definitions stay computable; the
  theorems instantiate the record with `Real.sin`, `Real.cos`, `Real.arccos`
  and `Real.pi`.
- Each call of `Math.random()` is modelled by reading the next entry of an
  explicit stream `rand : ℕ → ℚ` (or `ℕ → ℝ` for the particle builder); the
  stream index used for each draw follows the source's call order within the
  modelled computation.
- `document.getElementById` is a lookup `String → Option Unit`;
  the `data-theme` attribute on the document root is an `Option String`.
-/

-- Extra recursion budget for the kernel evaluation of the 5x5 qubit-grid
-- connection computations (`decide` proofs below).
set_option maxRecDepth 8000

/-!  Indexed map: the model of `Array.prototype.forEach((x, i) => ...)` /
indexed `for` loops used throughout the source.  Defined by hand so that the
induction lemmas below are immediate. -/

def mapWithIndex (f : ℕ → α → β) : ℕ → List α → List β
  | _, [] => []
  | k, a :: l => f k a :: mapWithIndex f (k + 1) l

/-!  Theme palettes, `src/js/three-scenes.js` lines 8-50. -/

/-- `ThemeColors.dark`, lines 9-17 of `src/js/three-scenes.js`. -/
structure DarkPalette where
  primary : ℕ
  secondary : ℕ
  highlight : ℕ
  background : ℕ
  particleOpacity : ℚ
  lineOpacity : ℚ
  glowOpacity : ℚ
deriving DecidableEq

/-- `ThemeColors.light`, lines 18-41 of `src/js/three-scenes.js`: the light
palette carries the extra depth levels and material scalars the dark palette
lacks (accessing those on the dark object would give `undefined` in JS, and no
modelled code path does so). -/
structure LightPalette where
  primary : ℕ
  secondary : ℕ
  highlight : ℕ
  depth1 : ℕ
  depth2 : ℕ
  depth3 : ℕ
  depth4 : ℕ
  depth5 : ℕ
  background : ℕ
  particleOpacity : ℚ
  lineOpacity : ℚ
  glowOpacity : ℚ
  wireframeOpacity : ℚ
  solidOpacity : ℚ
  emissiveIntensity : ℚ
deriving DecidableEq

/-- A palette value: the two shapes stored in the `ThemeColors` object. -/
inductive PaletteV where
  | dark (c : DarkPalette)
  | light (c : LightPalette)
deriving DecidableEq

/-- The `dark` entry of `ThemeColors` (lines 9-17). -/
def darkPalette : DarkPalette :=
  { primary := 0x0EA5E9
    secondary := 0x06B6D4
    highlight := 0x14B8A6
    background := 0x1a1a25
    particleOpacity := mkRat 4 5
    lineOpacity := mkRat 3 10
    glowOpacity := mkRat 9 10 }

/-- The `light` entry of `ThemeColors` (lines 18-41). -/
def lightPalette : LightPalette :=
  { primary := 0x1e40af
    secondary := 0x3b82f6
    highlight := 0x60a5fa
    depth1 := 0x1e3a8a
    depth2 := 0x2563eb
    depth3 := 0x3b82f6
    depth4 := 0x60a5fa
    depth5 := 0x93c5fd
    background := 0xfafbfd
    particleOpacity := mkRat 3 4
    lineOpacity := mkRat 7 20
    glowOpacity := mkRat 1 2
    wireframeOpacity := mkRat 3 5
    solidOpacity := mkRat 17 20
    emissiveIntensity := mkRat 3 20 }

/-- Property lookup `ThemeColors[theme]` (the object of lines 8-42): defined
keys resolve to their palette, any other key gives `undefined` (`none`). -/
def ThemeColors : String → Option PaletteV
  | "dark" => some (PaletteV.dark darkPalette)
  | "light" => some (PaletteV.light lightPalette)
  | _ => none

/-- JS `value || defaultString` for a nullable string: `null`/`undefined`
(`none`) and the empty string are falsy and give the default. -/
def jsStringOr (v : Option String) (d : String) : String :=
  match v with
  | none => d
  | some s => if s = "" then d else s

/-- `getCurrentTheme` (lines 44-46): reads the `data-theme` attribute of the
document root, defaulting to `dark`. -/
def getCurrentTheme (attr : Option String) : String :=
  jsStringOr attr "dark"

/-- `getThemeColors` (lines 48-50): `ThemeColors[getCurrentTheme()]`. -/
def getThemeColors (attr : Option String) : Option PaletteV :=
  ThemeColors (getCurrentTheme attr)

/-- `initTheme` of `src/js/main.js` lines 22-28: the theme written to the
document root at startup is `localStorage.getItem('theme') || 'dark'`. -/
def initThemeAttr (saved : Option String) : String :=
  jsStringOr saved "dark"

/-!  Materials and the hero scene's recolorable state,
`src/js/three-scenes.js` lines 55-377 (build) and 109-174 (`updateColors`). -/

/-- A `THREE` material as far as the recoloring code touches it:
`material.color.setHex(...)` and `material.opacity = ...`. -/
structure Material where
  color : ℕ
  opacity : ℚ
deriving DecidableEq

/-- One orbital ring of the hero scene (`createOrbitalRings`, lines 309-338):
a material plus its torus geometry radius `5 + i * 3`, which is fixed at build
time and never touched again. -/
structure OrbitalRing where
  mat : Material
  torusRadius : ℚ
deriving DecidableEq

/-- One entanglement line of the hero scene (`createEntanglementLines`,
lines 340-377), as the recoloring code sees it: just its material. -/
structure EntLine where
  mat : Material
deriving DecidableEq

/-- The recolorable state of `QuantumHeroScene`: the materials `updateColors`
(lines 109-174) rewrites, plus the build-time data it must not touch
(geometry parameters, camera, object counts, the single theme-observer
subscription installed by `setupThemeObserver`, lines 98-107). -/
structure HeroScene where
  coreMat : Material
  innerCoreMat : Material
  glowMat : Material
  particleMat : Material
  orbitals : List OrbitalRing
  lines : List EntLine
  cameraFov : ℚ
  cameraZ : ℚ
  particleCount : ℕ
  subscriptions : ℕ
deriving DecidableEq

/-- The light branch of `QuantumHeroScene.updateColors` (lines 113-142). -/
def heroRecolorLight (c : LightPalette) (s : HeroScene) : HeroScene :=
  { s with
    coreMat := { color := c.depth1, opacity := c.wireframeOpacity }
    innerCoreMat := { color := c.depth2, opacity := c.wireframeOpacity * mkRat 4 5 }
    glowMat := { color := c.depth3, opacity := c.glowOpacity }
    particleMat := { color := s.particleMat.color, opacity := c.particleOpacity }
    orbitals := mapWithIndex (fun i o =>
      { o with mat := { color := [c.depth2, c.depth3, c.depth4].getD (i % 3) 0
                        opacity := mkRat 1 2 - (i : ℚ) * mkRat 1 10 } }) 0 s.orbitals
    lines := mapWithIndex (fun _ l =>
      { l with mat := { color := c.depth4, opacity := c.lineOpacity } }) 0 s.lines }

/-- The dark branch of `QuantumHeroScene.updateColors` (lines 143-173); the
entanglement-line colors draw fresh randomness (`Math.random() > 0.5`,
line 170), modelled by `rand i` for the i-th line. -/
def heroRecolorDark (c : DarkPalette) (rand : ℕ → ℚ) (s : HeroScene) : HeroScene :=
  { s with
    coreMat := { color := c.primary, opacity := mkRat 4 5 }
    innerCoreMat := { color := c.secondary, opacity := mkRat 3 5 }
    glowMat := { color := c.primary, opacity := c.glowOpacity }
    particleMat := { color := s.particleMat.color, opacity := c.particleOpacity }
    orbitals := mapWithIndex (fun i o =>
      { o with mat := { color := [c.primary, c.secondary, c.highlight].getD (i % 3) 0
                        opacity := mkRat 2 5 } }) 0 s.orbitals
    lines := mapWithIndex (fun i l =>
      { l with mat := { color := if rand i > mkRat 1 2 then c.primary else c.secondary
                        opacity := mkRat 1 5 } }) 0 s.lines }

/-- `QuantumHeroScene.updateColors` (lines 109-174): reads the palette for the
current theme and branches on `theme === 'light'`.  An unknown theme makes
`getThemeColors()` return `undefined` and the dark branch then dereferences it
(`colors.primary`), which throws; that failure is modelled as `none`. -/
def updateColorsHero (attr : Option String) (rand : ℕ → ℚ) (s : HeroScene) :
    Option HeroScene :=
  match getThemeColors attr with
  | some (PaletteV.light c) => some (heroRecolorLight c s)
  | some (PaletteV.dark c) => some (heroRecolorDark c rand s)
  | none => none

/-- The hero scene as built under the dark (default) theme:
`createQuantumCore` (lines 176-210), `createParticles` material (lines
296-306), `createOrbitalRings` (lines 309-338), `createEntanglementLines`
(lines 340-377); `rand i` models the `Math.random() > 0.5` color draw of the
i-th entanglement line (line 364); draws for unmodelled line geometry are not
tracked.  The particle `PointsMaterial` uses vertex colors, so its own color
(default white) is never consulted; only its opacity matters.
`setupThemeObserver` (lines 98-107) installs exactly one subscription. -/
def buildHeroSceneDark (rand : ℕ → ℚ) : HeroScene :=
  { coreMat := { color := darkPalette.primary, opacity := mkRat 4 5 }
    innerCoreMat := { color := darkPalette.secondary, opacity := mkRat 3 5 }
    glowMat := { color := darkPalette.primary, opacity := darkPalette.glowOpacity }
    particleMat := { color := 0xffffff, opacity := darkPalette.particleOpacity }
    orbitals := (List.range 3).map (fun i =>
      { mat := { color := [darkPalette.primary, darkPalette.secondary,
                   darkPalette.highlight].getD i 0
                 opacity := mkRat 2 5 }
        torusRadius := 5 + 3 * (i : ℚ) })
    lines := (List.range 20).map (fun i =>
      { mat := { color := if rand i > mkRat 1 2 then darkPalette.primary
                   else darkPalette.secondary
                 opacity := mkRat 1 5 } })
    cameraFov := 75
    cameraZ := 30
    particleCount := 500
    subscriptions := 1 }

/-- One theme-change notification delivered to the hero scene's
`MutationObserver` (lines 98-107): the new `data-theme` attribute value plus
the `Math.random()` stream consumed by the resulting `updateColors` call. -/
def applyToggleHero (s : HeroScene) (ev : Option String × (ℕ → ℚ)) :
    Option HeroScene :=
  updateColorsHero ev.1 ev.2 s

/-- A sequence of theme-change notifications processed in order; `none`
propagates a failed recoloring (unknown theme). -/
def runTogglesHero : HeroScene → List (Option String × (ℕ → ℚ)) → Option HeroScene
  | s, [] => some s
  | s, ev :: evs =>
    match applyToggleHero s ev with
    | none => none
    | some s₁ => runTogglesHero s₁ evs

/-!  The processor scene, `src/js/three-scenes.js` lines 456-643. -/

/-- One qubit of `QuantumProcessorScene.createQubits` (lines 549-587): sphere
material, ring material, grid position `(x*3, 0, z*3)`, `baseY = 0`, and the
raw `Math.random()` seeds stored per object (the source stores
`phase = seed * 2 * Math.PI` and `frequency = 1 + seed`; the recoloring and
connection code never read the derived values, so the raw seeds are kept). -/
structure QubitObj where
  meshMat : Material
  ringMat : Material
  pos : ℤ × ℤ × ℤ
  baseY : ℚ
  phaseSeed : ℚ
  freqSeed : ℚ
deriving DecidableEq

/-- The recolorable state of `QuantumProcessorScene`: the grid helper
material, the qubit list, the camera field of view and the single
theme-observer subscription (lines 488-497). -/
structure ProcessorScene where
  gridMat : Material
  qubits : List QubitObj
  cameraFov : ℚ
  subscriptions : ℕ
deriving DecidableEq

/-- The grid iteration order of `createQubits` (lines 553-554):
`x` from -2 to 2 outer, `z` from -2 to 2 inner. -/
def gridIdx : List (ℤ × ℤ) :=
  ([-2, -1, 0, 1, 2] : List ℤ).flatMap
    (fun x => ([-2, -1, 0, 1, 2] : List ℤ).map (fun z => (x, z)))

/-- `createQubits` (lines 549-587) under the dark theme: the k-th qubit's
sphere color flips on `rand (3*k)` (`Math.random() > 0.5`, line 558), its
stored phase seed is `rand (3*k+1)` and frequency seed `rand (3*k+2)`
(lines 580-581); position is `(x*3, 0, z*3)` with `spacing = 3`. -/
def createQubits (rand : ℕ → ℚ) : List QubitObj :=
  mapWithIndex (fun k xz =>
    { meshMat := { color := if rand (3 * k) > mkRat 1 2 then darkPalette.primary
                     else darkPalette.secondary
                   opacity := mkRat 9 10 }
      ringMat := { color := darkPalette.primary, opacity := mkRat 1 2 }
      pos := (3 * xz.1, 0, 3 * xz.2)
      baseY := 0
      phaseSeed := rand (3 * k + 1)
      freqSeed := rand (3 * k + 2) }) 0 gridIdx

/-- The fixed grid positions of the 25 qubits. -/
def qubitGridPositions : List (ℤ × ℤ × ℤ) :=
  gridIdx.map (fun xz => (3 * xz.1, 0, 3 * xz.2))

/-- Squared Euclidean distance of two qubit positions (all coordinates are
integers). -/
def sqDist (p q : ℤ × ℤ × ℤ) : ℤ :=
  (p.1 - q.1) ^ 2 + (p.2.1 - q.2.1) ^ 2 + (p.2.2 - q.2.2) ^ 2

/-- The connection test of `createConnections` (line 601-602):
`position.distanceTo(other) < 4`, i.e. the Euclidean distance is below 4. -/
def connects (p q : ℤ × ℤ × ℤ) : Prop :=
  Real.sqrt ((sqDist p q : ℤ) : ℝ) < 4

instance decConnects (p q : ℤ × ℤ × ℤ) : Decidable (connects p q) :=
  decidable_of_iff (sqDist p q < 16) (by
    unfold connects
    rw [Real.sqrt_lt' (by norm_num : (0 : ℝ) < 4)]
    constructor
    · intro h
      calc ((sqDist p q : ℤ) : ℝ) < ((16 : ℤ) : ℝ) := by exact_mod_cast h
        _ = (4 : ℝ) ^ 2 := by norm_num
    · intro h
      have h2 : ((sqDist p q : ℤ) : ℝ) < ((16 : ℤ) : ℝ) := by
        calc ((sqDist p q : ℤ) : ℝ) < (4 : ℝ) ^ 2 := h
          _ = ((16 : ℤ) : ℝ) := by norm_num
      exact_mod_cast h2)

/-- The double loop of `createConnections` (lines 598-612) over a position
list: for every index pair `i < j` whose positions are closer than 4, one line
between those positions is created. -/
def posConnections (ps : List (ℤ × ℤ × ℤ)) :
    List ((ℤ × ℤ × ℤ) × (ℤ × ℤ × ℤ)) :=
  (List.range ps.length).flatMap (fun i =>
    (List.range ps.length).filterMap (fun j =>
      if i < j ∧ connects (ps.getD i (0, 0, 0)) (ps.getD j (0, 0, 0)) then
        some (ps.getD i (0, 0, 0), ps.getD j (0, 0, 0))
      else none))

/-- `QuantumProcessorScene.createConnections` (lines 589-613): the nested
`forEach` reads only each qubit's mesh position. -/
def createConnections (qs : List QubitObj) :
    List ((ℤ × ℤ × ℤ) × (ℤ × ℤ × ℤ)) :=
  posConnections (qs.map QubitObj.pos)

instance decQubitPairMem (i j : ℕ) :
    Decidable ((qubitGridPositions.getD i (0, 0, 0),
        qubitGridPositions.getD j (0, 0, 0)) ∈
      posConnections qubitGridPositions) :=
  inferInstance

/-- The light branch of `QuantumProcessorScene.updateColors`
(lines 504-507 and 515-523). -/
def processorRecolorLight (c : LightPalette) (s : ProcessorScene) :
    ProcessorScene :=
  { s with
    gridMat := { color := c.depth4, opacity := mkRat 1 4 }
    qubits := mapWithIndex (fun i q =>
      { q with
        meshMat := { color := [c.depth2, c.depth3, c.depth4].getD (i % 3) 0
                     opacity := c.solidOpacity }
        ringMat := { color := [c.depth2, c.depth3, c.depth4].getD (i % 3) 0
                     opacity := mkRat 1 2 } }) 0 s.qubits }

/-- The dark branch of `QuantumProcessorScene.updateColors`
(lines 508-511 and 524-532); each qubit's sphere color draws fresh
randomness (`Math.random() > 0.5`, line 526), modelled by `rand i`. -/
def processorRecolorDark (c : DarkPalette) (rand : ℕ → ℚ) (s : ProcessorScene) :
    ProcessorScene :=
  { s with
    gridMat := { color := c.primary, opacity := mkRat 3 10 }
    qubits := mapWithIndex (fun i q =>
      { q with
        meshMat := { color := if rand i > mkRat 1 2 then c.primary else c.secondary
                     opacity := mkRat 9 10 }
        ringMat := { color := c.primary, opacity := mkRat 1 2 } }) 0 s.qubits }

/-- `QuantumProcessorScene.updateColors` (lines 499-533): reads the palette
for the current theme and branches on `theme === 'light'`; an unknown theme
makes `getThemeColors()` return `undefined`, and dereferencing it throws,
modelled as `none`. -/
def updateColorsProcessor (attr : Option String) (rand : ℕ → ℚ)
    (s : ProcessorScene) : Option ProcessorScene :=
  match getThemeColors attr with
  | some (PaletteV.light c) => some (processorRecolorLight c s)
  | some (PaletteV.dark c) => some (processorRecolorDark c rand s)
  | none => none

/-- The processor scene as built under the dark theme: `createQuantumGrid`
(lines 535-547, dark branch: grid color `colors.primary`, opacity 0.3),
`createQubits`, and one theme-observer subscription. -/
def buildProcessorSceneDark (rand : ℕ → ℚ) : ProcessorScene :=
  { gridMat := { color := darkPalette.primary, opacity := mkRat 3 10 }
    qubits := createQubits rand
    cameraFov := 60
    subscriptions := 1 }

/-- One theme-change notification delivered to the processor scene's
`MutationObserver` (lines 488-497). -/
def applyToggleProcessor (s : ProcessorScene) (ev : Option String × (ℕ → ℚ)) :
    Option ProcessorScene :=
  updateColorsProcessor ev.1 ev.2 s

/-- A sequence of theme-change notifications processed in order by the
processor scene. -/
def runTogglesProcessor :
    ProcessorScene → List (Option String × (ℕ → ℚ)) → Option ProcessorScene
  | s, [] => some s
  | s, ev :: evs =>
    match applyToggleProcessor s ev with
    | none => none
    | some s₁ => runTogglesProcessor s₁ evs

/-!  Resize handling, `src/js/three-scenes.js` lines 384-390 (the other four
scene classes repeat the identical body at lines 615-620, 793-798, 935-940
and 1082-1087). -/

/-- A JS number as produced by the aspect-ratio division: a finite value,
a signed infinity, or NaN. -/
inductive JSNum where
  | finite (q : ℚ)
  | posInf
  | negInf
  | nan
deriving DecidableEq

/-- IEEE-754 double division `w / h` restricted to finite operands, keeping
only finiteness information exact: a zero divisor yields NaN (for `0/0`) or a
signed infinity, and never throws. -/
def jsDiv (w h : ℚ) : JSNum :=
  if h = 0 then
    if w = 0 then JSNum.nan
    else if 0 < w then JSNum.posInf
    else JSNum.negInf
  else JSNum.finite (w / h)

/-- The camera fields `onResize` can reach. -/
structure PerspectiveCamera where
  fov : ℚ
  aspect : JSNum
  near : ℚ
  far : ℚ
deriving DecidableEq

/-- The state read and written by `onResize`: the container (if any) with its
`offsetWidth`/`offsetHeight`, the camera, and the renderer size. -/
structure ResizeState where
  container : Option (ℚ × ℚ)
  camera : PerspectiveCamera
  rendererW : ℚ
  rendererH : ℚ
deriving DecidableEq

/-- `onResize` (lines 384-390): returns unchanged when the container is
absent; otherwise unconditionally recomputes
`camera.aspect = offsetWidth / offsetHeight` and resizes the renderer —
there is no guard against a zero height. -/
def onResize (s : ResizeState) : ResizeState :=
  match s.container with
  | none => s
  | some wh =>
    { s with
      camera := { s.camera with aspect := jsDiv wh.1 wh.2 }
      rendererW := wh.1
      rendererH := wh.2 }

/-!  The render loop's step order, `QuantumHeroScene.animate`
(lines 392-450) and `QuantumProcessorScene.animate` (lines 622-643). -/

/-- The externally visible steps of one `animate` invocation. -/
inductive LoopStep where
  | requestNext
  | computeElapsed
  | tickBody
  | render
deriving DecidableEq

/-- The step order of `QuantumHeroScene.animate` (lines 392-450):
`requestAnimationFrame(() => this.animate())` first (line 393), then
`this.clock.getElapsedTime()` (line 395), then the per-frame update body
(lines 397-447), then `renderer.render` (line 449). -/
def heroAnimateTrace : List LoopStep :=
  [LoopStep.requestNext, LoopStep.computeElapsed, LoopStep.tickBody,
    LoopStep.render]

/-- The step order of `QuantumProcessorScene.animate` (lines 622-643):
identical shape — schedule first (line 623), elapsed time (line 625), update
body (lines 627-640), render (line 642). -/
def processorAnimateTrace : List LoopStep :=
  [LoopStep.requestNext, LoopStep.computeElapsed, LoopStep.tickBody,
    LoopStep.render]

/-- Modelled from the spec (the order claim C9 asserts): elapsed-time
computation strictly before the tick, and the tick strictly before the
request of the next invocation. -/
def claimedLoopOrder (tr : List LoopStep) : Prop :=
  tr.indexOf LoopStep.computeElapsed < tr.indexOf LoopStep.tickBody ∧
  tr.indexOf LoopStep.tickBody < tr.indexOf LoopStep.requestNext

/-!  Constructor behavior on a missing container: every scene class starts
with `this.container = document.getElementById(containerId); if
(!this.container) return;` (lines 56-58, 457-459, 650-652, 829-831,
960-962), so nothing at all happens when the lookup fails. -/

/-- The externally visible effects of running a scene constructor. -/
structure InitEffects where
  surfaceInserted : Bool
  objectsBuilt : Bool
  resizeListeners : ℕ
  mouseListeners : ℕ
  themeSubscriptions : ℕ
  animationStarted : Bool
  errorRaised : Bool
deriving DecidableEq

/-- The effects of a constructor that returned at the missing-container
guard: nothing inserted, built, registered or raised. -/
def inertInit : InitEffects :=
  { surfaceInserted := false
    objectsBuilt := false
    resizeListeners := 0
    mouseListeners := 0
    themeSubscriptions := 0
    animationStarted := false
    errorRaised := false }

/-- `new QuantumHeroScene(containerId)` (lines 55-96): on a found container,
`init` appends the renderer surface, builds the objects, registers resize and
mousemove listeners, subscribes the theme observer and starts the loop. -/
def constructQuantumHeroScene (dom : String → Option Unit) (cid : String) :
    InitEffects :=
  match dom cid with
  | none => inertInit
  | some _ =>
    { surfaceInserted := true
      objectsBuilt := true
      resizeListeners := 1
      mouseListeners := 1
      themeSubscriptions := 1
      animationStarted := true
      errorRaised := false }

/-- `new QuantumProcessorScene(containerId)` (lines 456-486). -/
def constructQuantumProcessorScene (dom : String → Option Unit)
    (cid : String) : InitEffects :=
  match dom cid with
  | none => inertInit
  | some _ =>
    { surfaceInserted := true
      objectsBuilt := true
      resizeListeners := 1
      mouseListeners := 0
      themeSubscriptions := 1
      animationStarted := true
      errorRaised := false }

/-- `new NeuralNetworkScene(containerId)` (lines 649-677). -/
def constructNeuralNetworkScene (dom : String → Option Unit)
    (cid : String) : InitEffects :=
  match dom cid with
  | none => inertInit
  | some _ =>
    { surfaceInserted := true
      objectsBuilt := true
      resizeListeners := 1
      mouseListeners := 0
      themeSubscriptions := 1
      animationStarted := true
      errorRaised := false }

/-- `new FloatingParticlesScene(containerId)` (lines 828-854). -/
def constructFloatingParticlesScene (dom : String → Option Unit)
    (cid : String) : InitEffects :=
  match dom cid with
  | none => inertInit
  | some _ =>
    { surfaceInserted := true
      objectsBuilt := true
      resizeListeners := 1
      mouseListeners := 0
      themeSubscriptions := 1
      animationStarted := true
      errorRaised := false }

/-- `new FeatureQuantumScene(containerId)` (lines 959-985). -/
def constructFeatureQuantumScene (dom : String → Option Unit)
    (cid : String) : InitEffects :=
  match dom cid with
  | none => inertInit
  | some _ =>
    { surfaceInserted := true
      objectsBuilt := true
      resizeListeners := 1
      mouseListeners := 0
      themeSubscriptions := 1
      animationStarted := true
      errorRaised := false }

/-!  The hero particle system, `createParticles` dark branch
(lines 255-289) and the per-frame particle update in `animate`
(lines 414-429).  Real-valued; the transcendental functions are abstracted
into a record so that every definition stays computable. -/

/-- The mathematical functions the particle code calls (`Math.sin`,
`Math.cos`, `Math.acos`, `Math.PI`); theorems instantiate this with
`Real.sin`, `Real.cos`, `Real.arccos` and `Real.pi`. -/
structure TrigModel where
  sin : ℝ → ℝ
  cos : ℝ → ℝ
  acos : ℝ → ℝ
  pi : ℝ

/-- The per-particle animation state stored at build time
(lines 280-287): polar seed coordinates plus speed and phase offset. -/
structure Particle where
  radius : ℝ
  theta : ℝ
  phi : ℝ
  speed : ℝ
  phaseOffset : ℝ

/-- The dark-theme particle builder (lines 260-288) for index `i`.  Each
particle consumes seven `Math.random()` draws in source order: radius, theta,
phi, color mix ratio, size, speed, phase offset; the mix ratio and size
(draws 3 and 4) feed only the unmodelled color/size buffers. -/
def buildParticleDark (m : TrigModel) (rand : ℕ → ℝ) (i : ℕ) : Particle :=
  { radius := 8 + rand (7 * i) * 20
    theta := rand (7 * i + 1) * m.pi * 2
    phi := m.acos (2 * rand (7 * i + 2) - 1)
    speed := 0.001 + rand (7 * i + 5) * 0.002
    phaseOffset := rand (7 * i + 6) * m.pi * 2 }

/-- The 500 particles of the dark-theme hero build (line 215:
`particleCount = 500`). -/
def createParticlesDark (m : TrigModel) (rand : ℕ → ℝ) : List Particle :=
  (List.range 500).map (buildParticleDark m rand)

/-- The state mutation of one per-frame particle update (line 419):
`particle.theta += particle.speed`.  It reads no clock and samples no
randomness. -/
def tickParticle (p : Particle) : Particle :=
  { p with theta := p.theta + p.speed }

/-- The instantaneous radius of line 421:
`r = particle.radius + Math.sin(time + particle.phaseOffset) * 2`. -/
def instantRadius (m : TrigModel) (t : ℝ) (p : Particle) : ℝ :=
  p.radius + m.sin (t + p.phaseOffset) * 2

/-- The position written to the buffer (lines 422-424):
`(r sin φ cos θ, r sin φ sin θ, r cos φ)`. -/
def particlePosition (m : TrigModel) (t : ℝ) (p : Particle) : ℝ × ℝ × ℝ :=
  (instantRadius m t p * m.sin p.phi * m.cos p.theta,
    instantRadius m t p * m.sin p.phi * m.sin p.theta,
    instantRadius m t p * m.cos p.phi)

/-- One full per-frame update of a particle at elapsed time `t`
(lines 418-425): advance theta, then write the position computed from the
advanced state. -/
def frameParticle (m : TrigModel) (t : ℝ) (p : Particle) :
    Particle × (ℝ × ℝ × ℝ) :=
  (tickParticle p, particlePosition m t (tickParticle p))

/-- Running the per-frame updates for a whole schedule of elapsed times:
only the (time-independent) theta advance accumulates. -/
def runFrames (p : Particle) (ts : List ℝ) : Particle :=
  ts.foldl (fun q _ => tickParticle q) p

/-- The claim C7 clock schedule: elapsed times `k / 60` for `k = 0, …, 120`
(0 to 2 seconds in 1/60-second steps).  The times are exact rationals; they
are cast to `ℝ` where the schedule is fed to the real-valued particle
update. -/
def heroScheduleTimes : List ℚ :=
  (List.range 121).map (fun k => (k : ℚ) / 60)

/-!  Helper lemmas about `mapWithIndex`. -/

theorem length_mapWithIndex (f : ℕ → α → β) :
    ∀ (k : ℕ) (l : List α), (mapWithIndex f k l).length = l.length := by
  intro k l
  induction l generalizing k with
  | nil => rfl
  | cons a l ih => simp [mapWithIndex, ih]

theorem map_mapWithIndex_proj (f : ℕ → α → α) (g : α → γ)
    (h : ∀ i a, g (f i a) = g a) :
    ∀ (k : ℕ) (l : List α), (mapWithIndex f k l).map g = l.map g := by
  intro k l
  induction l generalizing k with
  | nil => rfl
  | cons a l ih => simp [mapWithIndex, h, ih]

theorem mapWithIndex_mapWithIndex (f g : ℕ → α → α)
    (h : ∀ i a, f i (g i a) = f i a) :
    ∀ (k : ℕ) (l : List α),
      mapWithIndex f k (mapWithIndex g k l) = mapWithIndex f k l := by
  intro k l
  induction l generalizing k with
  | nil => rfl
  | cons a l ih => simp [mapWithIndex, h, ih]

/-- Claim C10: with the `data-theme` attribute unset, the current theme
resolves to `dark`, the palette read resolves to the dark palette, and the
startup theme written by `initTheme` with an empty store is `dark`. -/
theorem C10_default_theme_dark :
    getCurrentTheme none = "dark" ∧
    getThemeColors none = some (PaletteV.dark darkPalette) ∧
    initThemeAttr none = "dark" :=
  ⟨rfl, rfl, rfl⟩

/-- Claim C3 (evaluating the code at the failing input): for a theme value
outside the two defined keys, the palette lookup silently yields `undefined`
(`none`) — no descriptive "palette not found" condition exists in the code. -/
theorem C3_unknown_theme_lookup :
    getThemeColors (some ("solarized")) = none ∧
    getCurrentTheme (some ("solarized")) = "solarized" := by
  exact ⟨rfl, rfl⟩

/-- Claim C8: constructing any of the five scene classes against a container
identifier absent from the page is a complete no-op: no surface inserted, no
objects built, no listeners or subscriptions registered, no loop started, no
error raised. -/
theorem C8_missing_container_noop (dom : String → Option Unit) (cid : String)
    (h : dom cid = none) :
    constructQuantumHeroScene dom cid = inertInit ∧
    constructQuantumProcessorScene dom cid = inertInit ∧
    constructNeuralNetworkScene dom cid = inertInit ∧
    constructFloatingParticlesScene dom cid = inertInit ∧
    constructFeatureQuantumScene dom cid = inertInit := by
  unfold constructQuantumHeroScene constructQuantumProcessorScene
    constructNeuralNetworkScene constructFloatingParticlesScene
    constructFeatureQuantumScene
  rw [h]
  exact ⟨rfl, rfl, rfl, rfl, rfl⟩

/-- Witness for C8 at a concrete empty page and identifier. -/
theorem C8_missing_container_noop_witness :
    constructQuantumHeroScene (fun _ => none) ("hero-canvas") = inertInit ∧
    constructQuantumProcessorScene (fun _ => none) ("hero-canvas") = inertInit ∧
    constructNeuralNetworkScene (fun _ => none) ("hero-canvas") = inertInit ∧
    constructFloatingParticlesScene (fun _ => none) ("hero-canvas") = inertInit ∧
    constructFeatureQuantumScene (fun _ => none) ("hero-canvas") = inertInit :=
  C8_missing_container_noop (fun _ => none) ("hero-canvas") rfl

/-- Claim C9 counterexample: in both modelled `animate` bodies the next
invocation is requested *before* the elapsed time is computed and the tick
body runs, so the order asserted by the claim (elapsed, tick, then request)
does not hold. -/
theorem C9_counterexample :
    ¬ claimedLoopOrder heroAnimateTrace ∧
    ¬ claimedLoopOrder processorAnimateTrace := by
  unfold claimedLoopOrder heroAnimateTrace processorAnimateTrace
  decide

/-- Claim C9 (amended): each `animate` invocation requests the next
invocation first, then computes the elapsed time, then runs the tick body and
finally renders; each step occurs exactly once per invocation, and the two
modelled scenes share the identical order. -/
theorem C9_loop_step_order :
    heroAnimateTrace.indexOf LoopStep.requestNext = 0 ∧
    heroAnimateTrace.indexOf LoopStep.computeElapsed <
      heroAnimateTrace.indexOf LoopStep.tickBody ∧
    heroAnimateTrace.indexOf LoopStep.tickBody <
      heroAnimateTrace.indexOf LoopStep.render ∧
    heroAnimateTrace.count LoopStep.requestNext = 1 ∧
    heroAnimateTrace.count LoopStep.computeElapsed = 1 ∧
    heroAnimateTrace.count LoopStep.tickBody = 1 ∧
    heroAnimateTrace.count LoopStep.render = 1 ∧
    processorAnimateTrace = heroAnimateTrace := by
  decide

/-- Claim C2 counterexample: resizing with a present container of width 100
and height 0 is *not* skipped — the camera aspect is overwritten with the
infinite value produced by the JS division `100 / 0`. -/
theorem C2_counterexample :
    (onResize
        { container := some (100, 0)
          camera := { fov := 75, aspect := JSNum.finite 1, near := mkRat 1 10, far := 1000 }
          rendererW := 50
          rendererH := 50 }).camera.aspect = JSNum.posInf ∧
    onResize
        { container := some (100, 0)
          camera := { fov := 75, aspect := JSNum.finite 1, near := mkRat 1 10, far := 1000 }
          rendererW := 50
          rendererH := 50 } ≠
      { container := some (100, 0)
        camera := { fov := 75, aspect := JSNum.finite 1, near := mkRat 1 10, far := 1000 }
        rendererW := 50
        rendererH := 50 } := by
  decide

/-- Claim C2 (amended): `onResize` has no zero-height guard.  When the
container exists it always overwrites the camera aspect with the JS division
width/height: a nonzero height gives the finite ratio, height 0 with width 0
gives NaN, and height 0 with positive width gives positive infinity; no
exception is raised in any case.  Only a missing container skips the
update. -/
theorem C2_resize_unguarded (w h : ℚ) (s : ResizeState)
    (hc : s.container = some (w, h)) :
    (h ≠ 0 → (onResize s).camera.aspect = JSNum.finite (w / h)) ∧
    (h = 0 → w = 0 → (onResize s).camera.aspect = JSNum.nan) ∧
    (h = 0 → 0 < w → (onResize s).camera.aspect = JSNum.posInf) ∧
    (∀ s₂ : ResizeState, s₂.container = none → onResize s₂ = s₂) := by
  refine ⟨?_, ?_, ?_, ?_⟩
  · intro hne
    simp [onResize, hc, jsDiv, hne]
  · intro h0 w0
    simp [onResize, hc, jsDiv, h0, w0]
  · intro h0 wpos
    simp [onResize, hc, jsDiv, h0, wpos, wpos.ne']
  · intro s₂ h₂
    simp [onResize, h₂]

/-- Witness for C2 (amended) at a concrete zero-height container. -/
theorem C2_resize_unguarded_witness :
    (onResize
        { container := some (100, 0)
          camera := { fov := 75, aspect := JSNum.finite 1, near := mkRat 1 10, far := 1000 }
          rendererW := 50
          rendererH := 50 }).camera.aspect = JSNum.posInf :=
  (C2_resize_unguarded 100 0
      { container := some (100, 0)
        camera := { fov := 75, aspect := JSNum.finite 1, near := mkRat 1 10, far := 1000 }
        rendererW := 50
        rendererH := 50 } rfl).2.2.1 rfl (by norm_num)

/-- The qubit positions do not depend on the randomness stream: `createQubits`
draws randomness only for colors and per-qubit animation seeds. -/
theorem createQubits_pos (r : ℕ → ℚ) :
    (createQubits r).map QubitObj.pos = qubitGridPositions := by
  rfl

/-- Claim C6: building the 5×5 qubit grid creates a connection line for
exactly the index pairs `i < j` whose positions lie at Euclidean distance
below 4; the whole connection list (hence its count, 40) is identical across
rebuilds with any randomness streams, and the grid always holds 25 qubits. -/
theorem C6_grid_connections (r₁ r₂ r : ℕ → ℚ) :
    createConnections (createQubits r₁) = createConnections (createQubits r₂) ∧
    (createQubits r).length = 25 ∧
    (createConnections (createQubits r)).length = 40 ∧
    ∀ i < 25, ∀ j < 25,
      ((qubitGridPositions.getD i (0, 0, 0),
          qubitGridPositions.getD j (0, 0, 0)) ∈
          createConnections (createQubits r) ↔
        i < j ∧ connects (qubitGridPositions.getD i (0, 0, 0))
          (qubitGridPositions.getD j (0, 0, 0))) := by
  have hpos : ∀ rr : ℕ → ℚ,
      createConnections (createQubits rr) = posConnections qubitGridPositions := by
    intro rr
    unfold createConnections
    rw [createQubits_pos]
  refine ⟨by rw [hpos, hpos], ?_, ?_, ?_⟩
  · unfold createQubits
    rw [length_mapWithIndex]
    rfl
  · rw [hpos]
    decide
  · rw [hpos]
    decide

/-- Witness for C6 at the concrete index pair (0, 1): the two leftmost
qubits of the first row are 3 apart, so their connection line exists. -/
theorem C6_grid_connections_witness :
    (qubitGridPositions.getD 0 (0, 0, 0), qubitGridPositions.getD 1 (0, 0, 0)) ∈
        createConnections (createQubits (fun _ => 0)) ↔
      0 < 1 ∧ connects (qubitGridPositions.getD 0 (0, 0, 0))
        (qubitGridPositions.getD 1 (0, 0, 0)) :=
  (C6_grid_connections (fun _ => 0) (fun _ => 0) (fun _ => 0)).2.2.2 0
    (by norm_num) 1 (by norm_num)

/-!  Recoloring preservation and composition lemmas. -/

theorem updateColorsHero_isSome (attr : Option String) (rand : ℕ → ℚ)
    (s : HeroScene) (h : getThemeColors attr ≠ none) :
    ∃ s', updateColorsHero attr rand s = some s' := by
  unfold updateColorsHero
  match hpal : getThemeColors attr with
  | none => exact absurd hpal h
  | some (PaletteV.light c) => exact ⟨_, rfl⟩
  | some (PaletteV.dark c) => exact ⟨_, rfl⟩

theorem updateColorsProcessor_isSome (attr : Option String) (rand : ℕ → ℚ)
    (p : ProcessorScene) (h : getThemeColors attr ≠ none) :
    ∃ p', updateColorsProcessor attr rand p = some p' := by
  unfold updateColorsProcessor
  match hpal : getThemeColors attr with
  | none => exact absurd hpal h
  | some (PaletteV.light c) => exact ⟨_, rfl⟩
  | some (PaletteV.dark c) => exact ⟨_, rfl⟩

theorem heroRecolor_preserves (attr : Option String) (rand : ℕ → ℚ)
    (s s' : HeroScene) (h : updateColorsHero attr rand s = some s') :
    s'.orbitals.map OrbitalRing.torusRadius =
      s.orbitals.map OrbitalRing.torusRadius ∧
    s'.orbitals.length = s.orbitals.length ∧
    s'.lines.length = s.lines.length ∧
    s'.cameraFov = s.cameraFov ∧
    s'.cameraZ = s.cameraZ ∧
    s'.particleCount = s.particleCount ∧
    s'.subscriptions = s.subscriptions ∧
    s'.particleMat.color = s.particleMat.color := by
  unfold updateColorsHero at h
  match hpal : getThemeColors attr with
  | none =>
    rw [hpal] at h
    exact absurd h (by simp)
  | some (PaletteV.light c) =>
    rw [hpal] at h
    injection h with h2
    subst h2
    refine ⟨?_, length_mapWithIndex _ 0 s.orbitals,
      length_mapWithIndex _ 0 s.lines, rfl, rfl, rfl, rfl, rfl⟩
    show List.map _ (mapWithIndex _ 0 s.orbitals) = List.map _ s.orbitals
    apply map_mapWithIndex_proj
    intro i a
    rfl
  | some (PaletteV.dark c) =>
    rw [hpal] at h
    injection h with h2
    subst h2
    refine ⟨?_, length_mapWithIndex _ 0 s.orbitals,
      length_mapWithIndex _ 0 s.lines, rfl, rfl, rfl, rfl, rfl⟩
    show List.map _ (mapWithIndex _ 0 s.orbitals) = List.map _ s.orbitals
    apply map_mapWithIndex_proj
    intro i a
    rfl

theorem processorRecolor_preserves (attr : Option String) (rand : ℕ → ℚ)
    (p p' : ProcessorScene) (h : updateColorsProcessor attr rand p = some p') :
    p'.qubits.map QubitObj.pos = p.qubits.map QubitObj.pos ∧
    p'.qubits.map QubitObj.baseY = p.qubits.map QubitObj.baseY ∧
    p'.qubits.map QubitObj.phaseSeed = p.qubits.map QubitObj.phaseSeed ∧
    p'.qubits.map QubitObj.freqSeed = p.qubits.map QubitObj.freqSeed ∧
    p'.qubits.length = p.qubits.length ∧
    p'.cameraFov = p.cameraFov ∧
    p'.subscriptions = p.subscriptions := by
  unfold updateColorsProcessor at h
  match hpal : getThemeColors attr with
  | none =>
    rw [hpal] at h
    exact absurd h (by simp)
  | some (PaletteV.light c) =>
    rw [hpal] at h
    injection h with h2
    subst h2
    refine ⟨?_, ?_, ?_, ?_, length_mapWithIndex _ 0 p.qubits, rfl, rfl⟩ <;>
    · show List.map _ (mapWithIndex _ 0 p.qubits) = List.map _ p.qubits
      apply map_mapWithIndex_proj
      intro i a
      rfl
  | some (PaletteV.dark c) =>
    rw [hpal] at h
    injection h with h2
    subst h2
    refine ⟨?_, ?_, ?_, ?_, length_mapWithIndex _ 0 p.qubits, rfl, rfl⟩ <;>
    · show List.map _ (mapWithIndex _ 0 p.qubits) = List.map _ p.qubits
      apply map_mapWithIndex_proj
      intro i a
      rfl

theorem updateColorsHero_absorb (a₁ a₂ : Option String) (r₁ r₂ : ℕ → ℚ)
    (s s₁ : HeroScene) (h₁ : updateColorsHero a₁ r₁ s = some s₁) :
    updateColorsHero a₂ r₂ s₁ = updateColorsHero a₂ r₂ s := by
  unfold updateColorsHero at h₁ ⊢
  match hp1 : getThemeColors a₁ with
  | none =>
    rw [hp1] at h₁
    exact absurd h₁ (by simp)
  | some (PaletteV.light c₁) =>
    rw [hp1] at h₁
    injection h₁ with h₂
    subst h₂
    match hp2 : getThemeColors a₂ with
    | none => rfl
    | some (PaletteV.light c₂) =>
      show some (heroRecolorLight c₂ (heroRecolorLight c₁ s)) =
        some (heroRecolorLight c₂ s)
      congr 1
      unfold heroRecolorLight
      congr 1 <;> first | rfl | (apply mapWithIndex_mapWithIndex; intro i a; rfl)
    | some (PaletteV.dark c₂) =>
      show some (heroRecolorDark c₂ r₂ (heroRecolorLight c₁ s)) =
        some (heroRecolorDark c₂ r₂ s)
      congr 1
      unfold heroRecolorLight heroRecolorDark
      congr 1 <;> first | rfl | (apply mapWithIndex_mapWithIndex; intro i a; rfl)
  | some (PaletteV.dark c₁) =>
    rw [hp1] at h₁
    injection h₁ with h₂
    subst h₂
    match hp2 : getThemeColors a₂ with
    | none => rfl
    | some (PaletteV.light c₂) =>
      show some (heroRecolorLight c₂ (heroRecolorDark c₁ r₁ s)) =
        some (heroRecolorLight c₂ s)
      congr 1
      unfold heroRecolorLight heroRecolorDark
      congr 1 <;> first | rfl | (apply mapWithIndex_mapWithIndex; intro i a; rfl)
    | some (PaletteV.dark c₂) =>
      show some (heroRecolorDark c₂ r₂ (heroRecolorDark c₁ r₁ s)) =
        some (heroRecolorDark c₂ r₂ s)
      congr 1
      unfold heroRecolorDark
      congr 1 <;> first | rfl | (apply mapWithIndex_mapWithIndex; intro i a; rfl)

theorem runTogglesHero_absorb (evs : List (Option String × (ℕ → ℚ)))
    (ev : Option String × (ℕ → ℚ))
    (hevs : ∀ e ∈ evs, getThemeColors e.1 ≠ none) :
    ∀ s : HeroScene, runTogglesHero s (evs ++ [ev]) = applyToggleHero s ev := by
  induction evs with
  | nil =>
    intro s
    cases h : applyToggleHero s ev <;> simp [runTogglesHero, h]
  | cons e evs ih =>
    intro s
    obtain ⟨s₁, hs₁⟩ := updateColorsHero_isSome e.1 e.2 s
      (hevs e (List.mem_cons_self e evs))
    have happ : applyToggleHero s e = some s₁ := hs₁
    simp only [List.cons_append, runTogglesHero, happ]
    show runTogglesHero s₁ (evs ++ [ev]) = applyToggleHero s ev
    rw [ih (fun e2 he2 => hevs e2 (List.mem_cons_of_mem e he2)) s₁]
    show updateColorsHero ev.1 ev.2 s₁ = updateColorsHero ev.1 ev.2 s
    exact updateColorsHero_absorb e.1 ev.1 e.2 ev.2 s s₁ hs₁

theorem updateColorsProcessor_absorb (a₁ a₂ : Option String) (r₁ r₂ : ℕ → ℚ)
    (p p₁ : ProcessorScene) (h₁ : updateColorsProcessor a₁ r₁ p = some p₁) :
    updateColorsProcessor a₂ r₂ p₁ = updateColorsProcessor a₂ r₂ p := by
  unfold updateColorsProcessor at h₁ ⊢
  match hp1 : getThemeColors a₁ with
  | none =>
    rw [hp1] at h₁
    exact absurd h₁ (by simp)
  | some (PaletteV.light c₁) =>
    rw [hp1] at h₁
    injection h₁ with h₂
    subst h₂
    match hp2 : getThemeColors a₂ with
    | none => rfl
    | some (PaletteV.light c₂) =>
      show some (processorRecolorLight c₂ (processorRecolorLight c₁ p)) =
        some (processorRecolorLight c₂ p)
      congr 1
      unfold processorRecolorLight
      congr 1
      apply mapWithIndex_mapWithIndex
      intro i a
      rfl
    | some (PaletteV.dark c₂) =>
      show some (processorRecolorDark c₂ r₂ (processorRecolorLight c₁ p)) =
        some (processorRecolorDark c₂ r₂ p)
      congr 1
      unfold processorRecolorLight processorRecolorDark
      congr 1
      apply mapWithIndex_mapWithIndex
      intro i a
      rfl
  | some (PaletteV.dark c₁) =>
    rw [hp1] at h₁
    injection h₁ with h₂
    subst h₂
    match hp2 : getThemeColors a₂ with
    | none => rfl
    | some (PaletteV.light c₂) =>
      show some (processorRecolorLight c₂ (processorRecolorDark c₁ r₁ p)) =
        some (processorRecolorLight c₂ p)
      congr 1
      unfold processorRecolorLight processorRecolorDark
      congr 1
      apply mapWithIndex_mapWithIndex
      intro i a
      rfl
    | some (PaletteV.dark c₂) =>
      show some (processorRecolorDark c₂ r₂ (processorRecolorDark c₁ r₁ p)) =
        some (processorRecolorDark c₂ r₂ p)
      congr 1
      unfold processorRecolorDark
      congr 1
      apply mapWithIndex_mapWithIndex
      intro i a
      rfl

theorem runTogglesProcessor_absorb (evs : List (Option String × (ℕ → ℚ)))
    (ev : Option String × (ℕ → ℚ))
    (hevs : ∀ e ∈ evs, getThemeColors e.1 ≠ none) :
    ∀ p : ProcessorScene,
      runTogglesProcessor p (evs ++ [ev]) = applyToggleProcessor p ev := by
  induction evs with
  | nil =>
    intro p
    cases h : applyToggleProcessor p ev <;> simp [runTogglesProcessor, h]
  | cons e evs ih =>
    intro p
    obtain ⟨p₁, hp₁⟩ := updateColorsProcessor_isSome e.1 e.2 p
      (hevs e (List.mem_cons_self e evs))
    have happ : applyToggleProcessor p e = some p₁ := hp₁
    simp only [List.cons_append, runTogglesProcessor, happ]
    show runTogglesProcessor p₁ (evs ++ [ev]) = applyToggleProcessor p ev
    rw [ih (fun e2 he2 => hevs e2 (List.mem_cons_of_mem e he2)) p₁]
    show updateColorsProcessor ev.1 ev.2 p₁ = updateColorsProcessor ev.1 ev.2 p
    exact updateColorsProcessor_absorb e.1 ev.1 e.2 ev.2 p p₁ hp₁

/-- Claim C4: for every supported theme value, the theme-change recoloring of
the hero and processor scenes succeeds and rewrites only material color and
opacity fields: every orbital's geometry radius, every qubit's position and
animation seeds, the object counts, the camera parameters, the subscription
count and the (vertex-colored) particle material's color are all left exactly
as they were, and no object list is grown or shrunk. -/
theorem C4_recolor_isolation (attr : Option String) (rand : ℕ → ℚ)
    (s : HeroScene) (p : ProcessorScene) (h : getThemeColors attr ≠ none) :
    ∃ s' p', updateColorsHero attr rand s = some s' ∧
      updateColorsProcessor attr rand p = some p' ∧
      s'.orbitals.map OrbitalRing.torusRadius =
        s.orbitals.map OrbitalRing.torusRadius ∧
      s'.orbitals.length = s.orbitals.length ∧
      s'.lines.length = s.lines.length ∧
      s'.cameraFov = s.cameraFov ∧
      s'.cameraZ = s.cameraZ ∧
      s'.particleCount = s.particleCount ∧
      s'.subscriptions = s.subscriptions ∧
      s'.particleMat.color = s.particleMat.color ∧
      p'.qubits.map QubitObj.pos = p.qubits.map QubitObj.pos ∧
      p'.qubits.map QubitObj.baseY = p.qubits.map QubitObj.baseY ∧
      p'.qubits.map QubitObj.phaseSeed = p.qubits.map QubitObj.phaseSeed ∧
      p'.qubits.map QubitObj.freqSeed = p.qubits.map QubitObj.freqSeed ∧
      p'.qubits.length = p.qubits.length ∧
      p'.cameraFov = p.cameraFov ∧
      p'.subscriptions = p.subscriptions := by
  obtain ⟨s', hs⟩ := updateColorsHero_isSome attr rand s h
  obtain ⟨p', hp⟩ := updateColorsProcessor_isSome attr rand p h
  obtain ⟨ho, hol, hll, hf, hz, hpc, hsub, hcol⟩ :=
    heroRecolor_preserves attr rand s s' hs
  obtain ⟨q1, q2, q3, q4, ql, qf, qs⟩ :=
    processorRecolor_preserves attr rand p p' hp
  exact ⟨s', p', hs, hp, ho, hol, hll, hf, hz, hpc, hsub, hcol,
    q1, q2, q3, q4, ql, qf, qs⟩

/-- Witness for C4: a concrete dark-theme recoloring of freshly built hero
and processor scenes. -/
theorem C4_recolor_isolation_witness :
    ∃ s' p',
      updateColorsHero (some ("dark")) (fun _ => 0)
          (buildHeroSceneDark (fun _ => 0)) = some s' ∧
      updateColorsProcessor (some ("dark")) (fun _ => 0)
          (buildProcessorSceneDark (fun _ => 0)) = some p' ∧
      s'.orbitals.map OrbitalRing.torusRadius =
        (buildHeroSceneDark (fun _ => 0)).orbitals.map OrbitalRing.torusRadius ∧
      s'.orbitals.length = (buildHeroSceneDark (fun _ => 0)).orbitals.length ∧
      s'.lines.length = (buildHeroSceneDark (fun _ => 0)).lines.length ∧
      s'.cameraFov = (buildHeroSceneDark (fun _ => 0)).cameraFov ∧
      s'.cameraZ = (buildHeroSceneDark (fun _ => 0)).cameraZ ∧
      s'.particleCount = (buildHeroSceneDark (fun _ => 0)).particleCount ∧
      s'.subscriptions = (buildHeroSceneDark (fun _ => 0)).subscriptions ∧
      s'.particleMat.color = (buildHeroSceneDark (fun _ => 0)).particleMat.color ∧
      p'.qubits.map QubitObj.pos =
        (buildProcessorSceneDark (fun _ => 0)).qubits.map QubitObj.pos ∧
      p'.qubits.map QubitObj.baseY =
        (buildProcessorSceneDark (fun _ => 0)).qubits.map QubitObj.baseY ∧
      p'.qubits.map QubitObj.phaseSeed =
        (buildProcessorSceneDark (fun _ => 0)).qubits.map QubitObj.phaseSeed ∧
      p'.qubits.map QubitObj.freqSeed =
        (buildProcessorSceneDark (fun _ => 0)).qubits.map QubitObj.freqSeed ∧
      p'.qubits.length = (buildProcessorSceneDark (fun _ => 0)).qubits.length ∧
      p'.cameraFov = (buildProcessorSceneDark (fun _ => 0)).cameraFov ∧
      p'.subscriptions = (buildProcessorSceneDark (fun _ => 0)).subscriptions :=
  C4_recolor_isolation (some ("dark")) (fun _ => 0)
    (buildHeroSceneDark (fun _ => 0)) (buildProcessorSceneDark (fun _ => 0))
    (by decide)

/-- Claim C5 (amended): toggling the theme any number of times leaves each
scene's observer subscription count at the single subscription created at
build time, and the final material state is exactly that of a single
recoloring of the built scene with the final theme value and the random draws
consumed by that final recoloring call — it depends on nothing else in the
toggle history.  (Because the dark-theme recoloring draws fresh randomness,
equality with "a single toggle" holds per-randomness, not across different
draws; see the counterexample.) -/
theorem C5_toggle_convergence (br bp : ℕ → ℚ)
    (evs : List (Option String × (ℕ → ℚ))) (ev : Option String × (ℕ → ℚ))
    (hevs : ∀ e ∈ evs, getThemeColors e.1 ≠ none) :
    runTogglesHero (buildHeroSceneDark br) (evs ++ [ev]) =
      updateColorsHero ev.1 ev.2 (buildHeroSceneDark br) ∧
    runTogglesProcessor (buildProcessorSceneDark bp) (evs ++ [ev]) =
      updateColorsProcessor ev.1 ev.2 (buildProcessorSceneDark bp) ∧
    (∀ s', runTogglesHero (buildHeroSceneDark br) (evs ++ [ev]) = some s' →
      s'.subscriptions = 1) ∧
    (∀ p', runTogglesProcessor (buildProcessorSceneDark bp) (evs ++ [ev]) =
        some p' → p'.subscriptions = 1) := by
  have habsH := runTogglesHero_absorb evs ev hevs (buildHeroSceneDark br)
  have habsP := runTogglesProcessor_absorb evs ev hevs (buildProcessorSceneDark bp)
  refine ⟨habsH, habsP, ?_, ?_⟩
  · intro s' hs'
    rw [habsH] at hs'
    exact (heroRecolor_preserves ev.1 ev.2 _ s' hs').2.2.2.2.2.2.1
  · intro p' hp'
    rw [habsP] at hp'
    exact (processorRecolor_preserves ev.1 ev.2 _ p' hp').2.2.2.2.2.2

/-- Witness for C5 (amended) at a single dark toggle on freshly built
scenes. -/
theorem C5_toggle_convergence_witness :
    runTogglesHero (buildHeroSceneDark (fun _ => 0))
        ([] ++ [(some ("dark"), fun _ => 0)]) =
      updateColorsHero (some ("dark")) (fun _ => 0)
        (buildHeroSceneDark (fun _ => 0)) ∧
    runTogglesProcessor (buildProcessorSceneDark (fun _ => 0))
        ([] ++ [(some ("dark"), fun _ => 0)]) =
      updateColorsProcessor (some ("dark")) (fun _ => 0)
        (buildProcessorSceneDark (fun _ => 0)) ∧
    (∀ s', runTogglesHero (buildHeroSceneDark (fun _ => 0))
        ([] ++ [(some ("dark"), fun _ => 0)]) = some s' →
      s'.subscriptions = 1) ∧
    (∀ p', runTogglesProcessor (buildProcessorSceneDark (fun _ => 0))
        ([] ++ [(some ("dark"), fun _ => 0)]) = some p' →
      p'.subscriptions = 1) :=
  C5_toggle_convergence (fun _ => 0) (fun _ => 0) []
    ((some ("dark"), fun _ => 0)) (by simp)

/-- Claim C5 counterexample: two toggles ending on the dark theme and a
single toggle to the dark theme can leave the hero scene in different
material states, because the dark recoloring draws fresh randomness for the
entanglement-line colors — here the first run draws 3/5 (above 1/2, primary
color) and the second draws 2/5 (below 1/2, secondary color). -/
theorem C5_counterexample :
    Option.map (fun s => s.lines.map (fun l => l.mat.color))
        (runTogglesHero (buildHeroSceneDark (fun _ => 0))
          [(some ("light"), fun _ => 0), (some ("dark"), fun _ => mkRat 3 5)]) ≠
      Option.map (fun s => s.lines.map (fun l => l.mat.color))
        (runTogglesHero (buildHeroSceneDark (fun _ => 0))
          [(some ("dark"), fun _ => mkRat 2 5)]) := by
  decide

/-- Running any schedule of per-frame updates changes only theta, which
advances by `speed` once per tick: the per-frame state update reads neither
the clock nor any randomness. -/
theorem runFrames_closed (ts : List ℝ) : ∀ p : Particle,
    runFrames p ts =
      { radius := p.radius
        theta := p.theta + p.speed * ts.length
        phi := p.phi
        speed := p.speed
        phaseOffset := p.phaseOffset } := by
  induction ts with
  | nil =>
    intro p
    simp [runFrames]
  | cons t ts ih =>
    intro p
    show runFrames (tickParticle p) ts = _
    rw [ih (tickParticle p)]
    unfold tickParticle
    simp only [List.length_cons]
    congr 1
    push_cast
    ring

/-- Claim C1 (amended): after build time the per-frame particle update
samples no randomness and is a deterministic function of the stored state
alone, but the written position depends on the number of ticks executed as
well as the elapsed time: theta advances by `speed` on every tick, so after
`n` ticks position is a function of (build-time seeds, `n`, current elapsed
time) — two runs agree whenever their tick counts agree, whatever the
individual tick timestamps were. -/
theorem C1_position_tick_count (p : Particle) (ts₁ ts₂ : List ℝ) (t : ℝ)
    (h : ts₁.length = ts₂.length) :
    runFrames p ts₁ = runFrames p ts₂ ∧
    (runFrames p ts₁).theta = p.theta + p.speed * ts₁.length ∧
    (runFrames p ts₁).radius = p.radius ∧
    (runFrames p ts₁).phi = p.phi ∧
    (runFrames p ts₁).speed = p.speed ∧
    (runFrames p ts₁).phaseOffset = p.phaseOffset ∧
    particlePosition (TrigModel.mk Real.sin Real.cos Real.arccos Real.pi) t
        (runFrames p ts₁) =
      particlePosition (TrigModel.mk Real.sin Real.cos Real.arccos Real.pi) t
        (runFrames p ts₂) := by
  rw [runFrames_closed ts₁ p, runFrames_closed ts₂ p, h]
  exact ⟨rfl, rfl, rfl, rfl, rfl, rfl, rfl⟩

/-- Witness for C1 (amended): two one-tick schedules with different
timestamps give the identical particle state and written position. -/
theorem C1_position_tick_count_witness :
    runFrames { radius := 8, theta := 0, phi := 0, speed := 1, phaseOffset := 0 }
        [(0 : ℝ)] =
      runFrames { radius := 8, theta := 0, phi := 0, speed := 1, phaseOffset := 0 }
        [(1 : ℝ)] ∧
    (runFrames { radius := 8, theta := 0, phi := 0, speed := 1, phaseOffset := 0 }
        [(0 : ℝ)]).theta =
      (0 : ℝ) + 1 * ([(0 : ℝ)].length : ℝ) ∧
    (runFrames { radius := 8, theta := 0, phi := 0, speed := 1, phaseOffset := 0 }
        [(0 : ℝ)]).radius = 8 ∧
    (runFrames { radius := 8, theta := 0, phi := 0, speed := 1, phaseOffset := 0 }
        [(0 : ℝ)]).phi = 0 ∧
    (runFrames { radius := 8, theta := 0, phi := 0, speed := 1, phaseOffset := 0 }
        [(0 : ℝ)]).speed = 1 ∧
    (runFrames { radius := 8, theta := 0, phi := 0, speed := 1, phaseOffset := 0 }
        [(0 : ℝ)]).phaseOffset = 0 ∧
    particlePosition (TrigModel.mk Real.sin Real.cos Real.arccos Real.pi) 2
        (runFrames { radius := 8, theta := 0, phi := 0, speed := 1, phaseOffset := 0 }
          [(0 : ℝ)]) =
      particlePosition (TrigModel.mk Real.sin Real.cos Real.arccos Real.pi) 2
        (runFrames { radius := 8, theta := 0, phi := 0, speed := 1, phaseOffset := 0 }
          [(1 : ℝ)]) :=
  C1_position_tick_count
    { radius := 8, theta := 0, phi := 0, speed := 1, phaseOffset := 0 }
    [(0 : ℝ)] [(1 : ℝ)] 2 rfl

/-- Claim C1 counterexample: positions are *not* a function of the build-time
seeds and the elapsed time alone.  A particle built from draws
(0, 0, 1/2, _, _, 0, 0) — radius 8, theta 0, phi = acos 0 = π/2, speed 0.001,
phase 0 — is ticked at elapsed time 0: its written x-coordinate is
8·cos(0.001).  Ticking again at the *same* elapsed time 0 writes
8·cos(0.002) ≠ 8·cos(0.001), because every tick mutates theta by `speed`. -/
theorem C1_counterexample :
    (frameParticle (TrigModel.mk Real.sin Real.cos Real.arccos Real.pi) 0
        (buildParticleDark (TrigModel.mk Real.sin Real.cos Real.arccos Real.pi)
          (fun n => if n = 2 then (1 / 2 : ℝ) else 0) 0)).2 ≠
      (frameParticle (TrigModel.mk Real.sin Real.cos Real.arccos Real.pi) 0
        ((frameParticle (TrigModel.mk Real.sin Real.cos Real.arccos Real.pi) 0
          (buildParticleDark (TrigModel.mk Real.sin Real.cos Real.arccos Real.pi)
            (fun n => if n = 2 then (1 / 2 : ℝ) else 0) 0)).1)).2 := by
  intro h
  have h1 := congrArg Prod.fst h
  simp only [frameParticle, tickParticle, buildParticleDark, particlePosition,
    instantRadius] at h1
  norm_num at h1
  have hmem1 : (1 / 1000 : ℝ) ∈ Set.Icc 0 Real.pi :=
    ⟨by norm_num, by linarith [Real.pi_gt_three]⟩
  have hmem2 : (1 / 500 : ℝ) ∈ Set.Icc 0 Real.pi :=
    ⟨by norm_num, by linarith [Real.pi_gt_three]⟩
  have hlt := Real.strictAntiOn_cos hmem1 hmem2 (by norm_num)
  rw [h1] at hlt
  exact lt_irrefl _ hlt

/-- Claim C7: in the dark-theme hero scene with its 500 particles, at every
step of the 0→2s clock schedule in 1/60-second ticks the instantaneous radius
`r = radius + sin(t + phase)·2` stays within `[radius₀ - 2, radius₀ + 2]` of
the particle's build-time radius: the tick never mutates the stored radius,
and the sine perturbation is bounded by 2. -/
theorem C7_radius_bounded (rand : ℕ → ℝ) (p₀ : Particle)
    (_hp : p₀ ∈ createParticlesDark
      (TrigModel.mk Real.sin Real.cos Real.arccos Real.pi) rand)
    (k : ℕ) (_hk : k ≤ 120) :
    instantRadius (TrigModel.mk Real.sin Real.cos Real.arccos Real.pi)
        ((k : ℝ) / 60)
        (runFrames p₀ ((heroScheduleTimes.take k).map (fun q => (q : ℝ)))) ∈
      Set.Icc (p₀.radius - 2) (p₀.radius + 2) := by
  rw [runFrames_closed ((heroScheduleTimes.take k).map (fun q => (q : ℝ))) p₀]
  unfold instantRadius
  simp only []
  have hs1 := Real.sin_le_one ((k : ℝ) / 60 + p₀.phaseOffset)
  have hs2 := Real.neg_one_le_sin ((k : ℝ) / 60 + p₀.phaseOffset)
  constructor
  · show p₀.radius - 2 ≤ p₀.radius + Real.sin ((k : ℝ) / 60 + p₀.phaseOffset) * 2
    linarith
  · show p₀.radius + Real.sin ((k : ℝ) / 60 + p₀.phaseOffset) * 2 ≤ p₀.radius + 2
    linarith

/-- Witness for C7: the first particle of a concretely built scene at
schedule step 60 (elapsed time 1 s). -/
theorem C7_radius_bounded_witness :
    instantRadius (TrigModel.mk Real.sin Real.cos Real.arccos Real.pi)
        ((60 : ℕ) / 60 : ℝ)
        (runFrames
          (buildParticleDark (TrigModel.mk Real.sin Real.cos Real.arccos Real.pi)
            (fun _ => 0) 0)
          ((heroScheduleTimes.take 60).map (fun q => (q : ℝ)))) ∈
      Set.Icc
        ((buildParticleDark (TrigModel.mk Real.sin Real.cos Real.arccos Real.pi)
            (fun _ => 0) 0).radius - 2)
        ((buildParticleDark (TrigModel.mk Real.sin Real.cos Real.arccos Real.pi)
            (fun _ => 0) 0).radius + 2) :=
  C7_radius_bounded (fun _ => 0)
    (buildParticleDark (TrigModel.mk Real.sin Real.cos Real.arccos Real.pi)
      (fun _ => 0) 0)
    (List.mem_map.mpr ⟨0, List.mem_range.mpr (by norm_num), rfl⟩)
    60 (by norm_num)
